import Mathlib

/-!
Shallow embedding of the handle-identity and asynchronous-dispatch layer of
`smbcpp.py` (a pure-Python ctypes wrapper for libsmbclient), together with
proofs of the behavioural claims about it.

Conventions of the embedding:
* Python byte strings are `List Nat` (one Nat per byte).
* Python exceptions are values of `PyErr`; fallible code returns `Except PyErr`.
* The native libsmbclient functions reached through the per-context call
  table are parameters of the Lean definitions (function arguments), since
  the source treats them as an uninterpreted function-pointer table.
* Stateful structures (the weak-value identity registries, the per-context
  work queue) are explicit state values threaded through the operations.
-/

namespace Smbcpp

/-- The kinds of Python exception the modelled code can raise.
`typeError`/`valueError` model `TypeError`/`ValueError` from argument
validation, `smbError` models the `SMBError` class of the source (we keep
only the describing label, not the captured errno), and `nameError` models
a `NameError` from resolving an undefined variable name. -/
inductive PyErr : Type where
  | typeError (msg : String)
  | valueError (msg : String)
  | smbError (label : String)
  | nameError (name : String)
deriving Repr, DecidableEq

/-- Association-list lookup modelling a Python `dict` access
(`d.get(k)` / `k in d`): the first binding of the key wins. -/
def assoc_get {κ ν : Type} [DecidableEq κ] : List (κ × ν) → κ → Option ν
  | [], _ => none
  | (k, v) :: rest, key => if k = key then some v else assoc_get rest key

/-!
## Identity registry (claim C1)

`Context.__new__` keeps a `WeakValueDictionary` `Context._instances` mapping
the raw native context pointer to the unique live wrapper: on construction it
first looks the pointer up, returns the existing wrapper when one is live,
and otherwise builds a fresh wrapper and registers it.  `GenericFile.__new__`
does the same for file/directory handles in `GenericFile._instances`, with
an extra `assert` that a found wrapper carries the same parent context and
close-operation name.

We model a registry state as an association list from native identifier to a
wrapper token (a Nat standing for the Python object identity) plus a counter
supplying fresh tokens.  Weak-reference death of a wrapper (garbage
collection after close) is the `collect` operation, which removes the entry.
-/

/-- State of `Context._instances`: live bindings (native id, wrapper token)
and the next fresh wrapper token. -/
structure RegState : Type where
  entries : List (Nat × Nat)
  fresh : Nat
deriving Repr, DecidableEq

/-- `Context.__new__`: look the native identifier up in `_instances`; if a
live wrapper exists return it unchanged, otherwise allocate a fresh wrapper
and register it under the identifier. Returns (wrapper, new state). -/
def intern (s : RegState) (id : Nat) : Nat × RegState :=
  match assoc_get s.entries id with
  | some w => (w, s)
  | none => (s.fresh, ⟨(id, s.fresh) :: s.entries, s.fresh + 1⟩)

/-- The `WeakValueDictionary` drops the binding for `id` when its wrapper
dies (is garbage-collected). -/
def collect (s : RegState) (id : Nat) : RegState :=
  ⟨s.entries.filter (fun e => e.1 ≠ id), s.fresh⟩

/-- One registry-affecting operation of a program run: a wrapper lookup or
construction (`intern`), or the death of a wrapper (`collect`). -/
inductive RegOp : Type where
  | intern (id : Nat)
  | collect (id : Nat)
deriving Repr, DecidableEq

/-- Apply one registry operation to the state. -/
def regStep (s : RegState) : RegOp → RegState
  | .intern id => (intern s id).2
  | .collect id => collect s id

/-- Run a whole sequence of operations from the initial empty registry. -/
def runRegOps (ops : List RegOp) : RegState :=
  ops.foldl regStep ⟨[], 0⟩

/-- An entry of `GenericFile._instances`: the wrapper token together with
the invariant metadata `GenericFile.__new__` asserts on a hit. -/
structure GFEntry : Type where
  wrapper : Nat
  parent : Nat
  closename : String
deriving Repr, DecidableEq

/-- State of `GenericFile._instances`. -/
structure GFState : Type where
  entries : List (Nat × GFEntry)
  fresh : Nat
deriving Repr, DecidableEq

/-- `GenericFile.__new__(celf, _smbobj, parent, _closename)`: look the native
handle up; on a hit, assert the stored parent and close-operation name match
and return the existing wrapper; on a miss, build and register a fresh
wrapper.  The failed `assert` is modelled as an error. -/
def generic_file_new (s : GFState) (id : Nat) (parent : Nat) (closename : String) :
    Except String (Nat × GFState) :=
  match assoc_get s.entries id with
  | some e =>
      if e.parent = parent ∧ e.closename = closename then .ok (e.wrapper, s)
      else .error "assert self.parent == parent and self._closename == _closename"
  | none =>
      .ok (s.fresh, ⟨(id, ⟨s.fresh, parent, closename⟩) :: s.entries, s.fresh + 1⟩)

/-!
## Async dispatch worker (claims C2, C3, C4)

`Context.enable_async_calls` starts one worker thread per Context, feeding on
a thread-safe FIFO `queue.SimpleQueue`.  `Context._call_async(func, args)`
appends a `_WorkQueueEntry(func, args, done_fute)` to that queue and returns
the future.  `Context._process_work_queue` pops entries in FIFO order; an
entry whose `func` is `None` (the shutdown sentinel, whose `args` and
`done_fute` are also `None`) ends the loop; otherwise the worker invokes
`entry.func(*entry.args)`, catches any exception, and posts the result or the
exception onto the originating event loop with `loop.call_soon_threadsafe`
(asyncio runs such callbacks in posting order, so completion order equals
processing order).

We model a queue entry as `Option (Op × Args)` — `none` is the sentinel with
its `func = None` — and the worker as a function from the queue contents to
the list of completions it posts, in order; each completion is the
`Except`-valued outcome of running that request.
-/

/-- `Context._call_async`: append the request to the FIFO work queue (the
returned future is identified by the request position, which we do not need
here). -/
def call_async {Op Args : Type} (q : List (Option (Op × Args))) (f : Op) (a : Args) :
    List (Option (Op × Args)) :=
  q ++ [some (f, a)]

/-- Submit a list of requests in order via `call_async`. -/
def submit_all {Op Args : Type} (q : List (Option (Op × Args))) (rs : List (Op × Args)) :
    List (Option (Op × Args)) :=
  rs.foldl (fun q r => call_async q r.1 r.2) q

/-- `Context._process_work_queue`: pop entries in FIFO order and run each to
completion strictly serially.  `exec` is the invocation
`entry.func(*entry.args)`, returning `.ok` or the caught exception; the
produced list is the sequence of completions posted (in order) onto the
event loop.  A `none` sentinel ends the loop; an empty list means the worker
is still blocked waiting on `queue.get()`. -/
def process_work_queue {Op Args β : Type} (exec : Op → Args → Except PyErr β) :
    List (Option (Op × Args)) → List (Except PyErr β)
  | [] => []
  | none :: _ => []
  | some (f, a) :: rest => exec f a :: process_work_queue exec rest

/-!
## String-argument encoding (`encode_str0`) and Context operations (claim C4)
-/

/-- A Python value passed where a path/name string is expected: a `str`
(carried as its UTF-8 byte encoding), a `bytes`/`bytearray`, or a value of
any other type (carried as its type name, used only in the error message). -/
inductive StrArg : Type where
  | ofStr (bs : List Nat)
  | ofBytes (bs : List Nat)
  | wrongType (typeName : String)
deriving Repr, DecidableEq

/-- `encode_str0(s)`: a `str` is encoded to bytes, a `bytes`/`bytearray` is
taken as is, anything else raises `TypeError`; a result containing an
embedded null byte raises `ValueError`; otherwise a terminating null byte is
appended. -/
def encode_str0 : StrArg → Except PyErr (List Nat)
  | .ofStr c_s =>
      if c_s.contains 0 then .error (.valueError "value cannot contain nulls")
      else .ok (c_s ++ [0])
  | .ofBytes c_s =>
      if c_s.contains 0 then .error (.valueError "value cannot contain nulls")
      else .ok (c_s ++ [0])
  | .wrongType t => .error (.typeError ("not a bytes or str: " ++ t))

/-- Results of the modelled Context operations. -/
inductive PyVal : Type where
  | noneVal
  | fileHandle (fobj : Nat)
  | bytesVal (bs : List Nat)
deriving Repr, DecidableEq

/-- `Context.open`: encode the file name (`TypeError`/`ValueError` propagate),
call the native open from the call table, raise `SMBError` when it returns
NULL, else wrap the returned native file handle.  `nativeOpen` is
`smbc_getFunctionOpen(ctx)` applied to (encoded name, flags, mode). -/
def context_open (nativeOpen : List Nat → Nat → Nat → Option Nat)
    (fname : StrArg) (flags mode : Nat) : Except PyErr Nat :=
  match encode_str0 fname with
  | .error e => .error e
  | .ok c_fname =>
      match nativeOpen c_fname flags mode with
      | none => .error (.smbError "opening File")
      | some fobj => .ok fobj

/-- `Context.unlink`: encode the file name, call the native unlink, raise
`SMBError` on a nonzero return. -/
def context_unlink (nativeUnlink : List Nat → Int) (fname : StrArg) :
    Except PyErr Unit :=
  match encode_str0 fname with
  | .error e => .error e
  | .ok c_fname =>
      if nativeUnlink c_fname ≠ 0 then .error (.smbError "unlinking file")
      else .ok ()

/-- The bound methods that the modelled async wrappers enqueue as the
`func` field of a `_WorkQueueEntry`. -/
inductive CtxMethod : Type where
  | openM
  | unlinkM
  | getxattrM
deriving Repr, DecidableEq

/-- The `args` tuple stored alongside the bound method in a
`_WorkQueueEntry`. -/
inductive ArgTuple : Type where
  | openArgs (fname : StrArg) (flags mode : Nat)
  | unlinkArgs (fname : StrArg)
  | getxattrArgs (fname name : StrArg)
deriving Repr, DecidableEq

/-- A Context work-queue entry (`none` models the shutdown sentinel). -/
abbrev CtxQueue : Type := List (Option (CtxMethod × ArgTuple))

/-- The worker thread invoking `entry.func(*entry.args)` for the modelled
methods: validation and the native call both happen here, on the worker.
A mismatched argument tuple cannot be produced by the wrappers. -/
def run_ctx_method (nativeOpen : List Nat → Nat → Nat → Option Nat)
    (nativeUnlink : List Nat → Int) : CtxMethod → ArgTuple → Except PyErr PyVal
  | .openM, .openArgs fname flags mode =>
      (context_open nativeOpen fname flags mode).map .fileHandle
  | .unlinkM, .unlinkArgs fname =>
      (context_unlink nativeUnlink fname).map (fun _ => .noneVal)
  | _, _ => .error (.typeError "argument tuple does not match method")

/-- `Context.open_async(fname, flags, mode)`: the body is exactly
`self._call_async(self.open, (fname, flags, mode))` — the raw arguments are
enqueued without any validation at the call site, and the future of the entry
(identified here by its queue position) is returned.  The `Except` result
type records that no exception is raised synchronously. -/
def open_async (q : CtxQueue) (fname : StrArg) (flags mode : Nat) :
    Except PyErr (CtxQueue × Nat) :=
  .ok (call_async q CtxMethod.openM (.openArgs fname flags mode), q.length)

/-- `Context.unlink_async(fname)`: `self._call_async(self.unlink, (fname,))`;
no validation at the call site. -/
def unlink_async (q : CtxQueue) (fname : StrArg) :
    Except PyErr (CtxQueue × Nat) :=
  .ok (call_async q CtxMethod.unlinkM (.unlinkArgs fname), q.length)

/-!
## Python name resolution for the buggy bodies (claims C9, C10)

Inside a method body a plain name resolves against the local scope
(parameters and locally assigned names), then the module globals, then the
builtins.  Class attributes are not part of that chain.  The module-level
names of `smbcpp.py` are listed below (`def_context_extra` is deleted with
`del` right after its call, so it is no longer a global when any method
runs); neither `sellf` nor `offset` is among them, and neither is a Python
builtin.
-/

/-- The module-level (global) names of `smbcpp.py`: the imports, the
module constants and the top-level classes and functions. -/
def module_globals : List String :=
  [ "os", "errno", "time", "ct", "weak_ref", "WeakValueDictionary",
    "threading", "array", "namedtuple", "queue", "enum", "atexit", "asyncio",
    "smbc", "SMBC", "StructStat", "StructStatVFS", "Dirent", "FileInfo",
    "PrintJobInfo", "NotifyCallbackAction", "THOUSAND", "MILLION", "BILLION",
    "_wderef", "SMBError", "FBytes", "_WorkQueueEntry", "encode_str0",
    "decode_bytes0", "decode_timespec", "_decode_dirent", "Context",
    "GenericFile", "File", "Directory", "version", "_atexit" ]

/-- Whether a plain name resolves in the given scope chain. -/
def resolve_name (scope : List String) (n : String) : Bool :=
  scope.contains n

/-- The scope chain of the body of `Context.getxattr_async(self, fname,
name)`: its parameters, then the module globals. -/
def getxattr_async_scope : List String :=
  ["self", "fname", "name"] ++ module_globals

/-- `Context.getxattr_async(fname, name)`: the body is
`return sellf._call_async(self, (fname, name))`.  Python first resolves the
name `sellf`; since it is undefined, a `NameError` is raised before anything
is enqueued.  (The `true` branch models what the line would do if the name
did resolve.) -/
def getxattr_async (q : CtxQueue) (fname name : StrArg) :
    Except PyErr (CtxQueue × Nat) :=
  match resolve_name getxattr_async_scope "sellf" with
  | false => .error (.nameError "sellf")
  | true =>
      .ok (call_async q CtxMethod.getxattrM (.getxattrArgs fname name), q.length)

/-- The scope chain of the body of `Directory.telldir(self)`: its parameter,
its one local assignment `result`, then the module globals. -/
def telldir_scope : List String :=
  ["self", "result"] ++ module_globals

/-- The ctypes return-value conversion for `SMBC.telldir_fn`: its restype is
`c_off_t = ct.c_ulonglong`, so the 64-bit value the native function returns
is delivered to Python reduced modulo 2^64, always non-negative — a native
C-level -1 arrives as 2^64 - 1. -/
def c_ulonglong_of_int (v : Int) : Nat :=
  (v % ((2 : Int) ^ 64)).toNat

/-- `Directory.telldir()`, taking the C-level off_t value the native telldir
returns: the local `result` receives that value as converted by ctypes
(`c_ulonglong_of_int`, an unsigned 64-bit quantity); the source then tests
`result < 0` (raising `SMBError`), and otherwise executes `return offset`,
where resolving the undefined name `offset` raises `NameError`. -/
def telldir (c_result : Int) : Except PyErr Int :=
  let result : Int := (c_ulonglong_of_int c_result : Nat)
  if result < 0 then .error (.smbError "getting directory offset")
  else if resolve_name telldir_scope "offset" then .ok result
  else .error (.nameError "offset")

/-!
## Directory enumeration (claim C5)

`Directory.get_all_dents` is a generator: it first calls `self.lseekdir(0)`
(resetting the native read cursor to zero), then repeatedly fills a scratch
buffer with the native getdents call and decodes `SMBC.dirent` records out
of it back to back, yielding every decoded entry whose `name` is not in
`(b".", b"..")`.  `_decode_dirent` extracts the raw comment and name bytes
and passes each through `decode_bytes0(b, decode)`: with `decode = True` the
bytes become a Python `str` via `b.decode()`; with `decode = False` they
stay `bytes`, truncated at the first null.

The key semantic point preserved by the model: a Python `str` never compares
equal (`==`) to a `bytes` value, so the two are distinct constructors of
`PyStrBytes`.
-/

/-- A decoded string-ish Python value: `bytes` (raw byte content) or `str`
(carried as the byte content it was decoded from). -/
inductive PyStrBytes : Type where
  | bytes (bs : List Nat)
  | text (bs : List Nat)
deriving Repr, DecidableEq

/-- `decode_bytes0(b, decode)`: with `decode` the whole byte string is
decoded into a `str`; without it, the bytes are truncated at the first
null byte and stay `bytes`. -/
def decode_bytes0 (b : List Nat) (decode : Bool) : PyStrBytes :=
  if decode then .text b else .bytes (b.takeWhile (fun c => c ≠ 0))

/-- A raw native `SMBC.dirent` record as it sits in the scratch buffer:
its type tag, the comment bytes and the name bytes (of the declared
`commentlen`/`namelen`). -/
structure SmbcDirent : Type where
  smbc_type : Nat
  comment : List Nat
  name : List Nat
deriving Repr, DecidableEq

/-- A decoded `Dirent` namedtuple. -/
structure Dirent : Type where
  smbc_type : Nat
  comment : PyStrBytes
  name : PyStrBytes
deriving Repr, DecidableEq

/-- `_decode_dirent(adr, decode_bytes)` on the raw record at `adr`. -/
def decode_dirent (de : SmbcDirent) (decode_bytes : Bool) : Dirent :=
  { smbc_type := de.smbc_type,
    comment := decode_bytes0 de.comment decode_bytes,
    name := decode_bytes0 de.name decode_bytes }

/-- The byte content of `b"."`. -/
def dotBytes : List Nat := [46]

/-- The byte content of `b".."`. -/
def dotdotBytes : List Nat := [46, 46]

/-- The filter test of `get_all_dents`: `dirent.name not in (b".", b"..")`,
negated.  Note both comparands of the source are `bytes` literals, so a
`str`-valued name can never match. -/
def is_dot_or_dotdot (n : PyStrBytes) : Bool :=
  n == .bytes dotBytes || n == .bytes dotdotBytes

/-- The refill-and-decode loop of `get_all_dents`.  `des` is the part of the
native entry stream the cursor has not yet passed; one native getdents call
returns a batch of `max 1 (batch k)` whole records (the native layer chooses
the batch partitioning, at least one record per call while any remain) and a
call with no records left returns 0 bytes, ending the loop.  Structural fuel
makes the recursion executable; `fuel ≥ des.length + 1` always suffices. -/
def get_all_dents_loop (decode : Bool) (batch : Nat → Nat) :
    Nat → Nat → List SmbcDirent → List Dirent
  | 0, _, _ => []
  | _ + 1, _, [] => []
  | fuel + 1, k, de :: des =>
      let n := max 1 (batch k)
      (((de :: des).take n).map (fun d => decode_dirent d decode)).filter
          (fun d => !(is_dot_or_dotdot d.name))
        ++ get_all_dents_loop decode batch fuel (k + 1) ((de :: des).drop n)

/-- `Directory.get_all_dents()`: reset the cursor to zero with
`self.lseekdir(0)` (so the prior `cursor` position is discarded and the full
entry stream `contents` is enumerated), then run the batched decode loop. -/
def get_all_dents (decode : Bool) (batch : Nat → Nat)
    (contents : List SmbcDirent) (cursor : Nat) : List Dirent :=
  let remaining := match cursor with | _ => contents
  get_all_dents_loop decode batch (remaining.length + 1) 0 remaining

/-!
## Simple auth table (claim C6)

`Context.SimpleAuthEntry` keeps a dict `_entries` from validated keys
(«server», «share») — where «share» or both components may be `None` — to
(«workgroup», «username», «password») triples.  `__getitem__` looks up the
exact key, then falls back to («server», None), then to (None, None), and
finally returns `(None, None, None)`.
-/

/-- A validated `SimpleAuthEntry` key: encoded server bytes or `None`, and
encoded share bytes or `None`. -/
abbrev AuthKey : Type := Option (List Nat) × Option (List Nat)

/-- An auth entry value: (workgroup, username, password), each possibly
`None`. -/
abbrev AuthValue : Type := Option (List Nat) × Option (List Nat) × Option (List Nat)

/-- `SimpleAuthEntry.__getitem__(key)` (after key validation): exact entry,
else — when the share component is not `None` — the («server», None) entry,
else — when the server component is not `None` — the (None, None) entry,
else `(None, None, None)`. -/
def simple_auth_lookup (entries : List (AuthKey × AuthValue)) (key : AuthKey) :
    AuthValue :=
  match assoc_get entries key with
  | some r => r
  | none =>
      match key.2, assoc_get entries (key.1, none) with
      | some _, some r => r
      | _, _ =>
          match key.1, assoc_get entries (none, none) with
          | some _, some r => r
          | _, _ => (none, none, none)

/-!
## Reading until end of file (claim C7)

`File.read(to_read)` with `to_read = None` delegates to `File.readall`;
with a count it issues exactly one native read.  `readall` loops: it breaks
when the outstanding request size `to_read` reaches 0 or a native read
returns 0 bytes (end of file); otherwise it advances past the `nrbytes`
returned, and replenishes the request size by whole multiples of
`read_at_once` so that at least `read_at_once/2` is always outstanding
(`add_to_read = (read_at_once * 3 // 2 - to_read) // read_at_once *
read_at_once`, applied when positive — with natural-number truncation the
formula below adds 0 exactly when the Python guard is false).

The native read is modelled by the remaining file content `data` plus a
partitioning oracle `cap`: the k-th call returns
`min to_read (min data.length (max 1 (cap k)))` bytes — an arbitrary
positive batch no larger than requested — and 0 bytes exactly when no
content remains.
-/

/-- The `while True` loop of `File.readall`, with structural fuel
(`fuel ≥ data.length + 1` suffices).  Returns (bytes accumulated, content
remaining after the loop). -/
def readall_loop (read_at_once : Nat) (cap : Nat → Nat) :
    Nat → Nat → Nat → List Nat → List Nat → List Nat × List Nat
  | 0, _, _, acc, data => (acc, data)
  | fuel + 1, k, to_read, acc, data =>
      if to_read = 0 then (acc, data)
      else
        match data with
        | [] => (acc, data)
        | _ :: _ =>
            let nrbytes := min to_read (min data.length (max 1 (cap k)))
            let t := to_read - nrbytes
            let add_to_read := (read_at_once * 3 / 2 - t) / read_at_once * read_at_once
            readall_loop read_at_once cap fuel (k + 1) (t + add_to_read)
              (acc ++ data.take nrbytes) (data.drop nrbytes)

/-- `File.readall()`: run the loop with the initial request size
`self.read_at_once` against the file content remaining at the current file
position. -/
def readall (read_at_once : Nat) (cap : Nat → Nat) (data : List Nat) :
    List Nat × List Nat :=
  readall_loop read_at_once cap (data.length + 1) 0 read_at_once [] data

/-- `File.read(to_read)`: `None` delegates to `readall`; a count issues
exactly one native read of up to that many bytes (fewer on a short read). -/
def file_read (read_at_once : Nat) (cap : Nat → Nat) (to_read : Option Nat)
    (data : List Nat) : List Nat × List Nat :=
  match to_read with
  | none => readall read_at_once cap data
  | some n =>
      let nrbytes := min n (min data.length (max 1 (cap 0)))
      (data.take nrbytes, data.drop nrbytes)

/-!
## Writing (claim C8)
-/

/-- A Python value passed as `write` data: a bytes-like object (carried as
its byte content) or a value of any other type. -/
inductive DataArg : Type where
  | ofBytes (bs : List Nat)
  | wrongType (typeName : String)
deriving Repr, DecidableEq

/-- `File.write(data)`: non-bytes-like data raises `TypeError`; then one
native write is issued and its return value `nrbytes` is inspected —
`nrbytes <= 0` raises `SMBError`, otherwise `nrbytes` is returned.
`nativeWrite` is `smbc_getFunctionWrite(ctx)` applied to the data (the
source passes the buffer address and `len(data)`). -/
def file_write (nativeWrite : List Nat → Int) (data : DataArg) :
    Except PyErr Int :=
  match data with
  | .wrongType _ =>
      .error (.typeError "data is not bytes, bytearray or array.array of bytes")
  | .ofBytes bs =>
      if nativeWrite bs ≤ 0 then .error (.smbError "writing to file")
      else .ok (nativeWrite bs)

/-!
## Helper lemmas
-/

/-- A failed `assoc_get` means the key is bound nowhere in the list. -/
lemma assoc_get_none_not_key {κ ν : Type} [DecidableEq κ] {l : List (κ × ν)} {k : κ}
    (h : assoc_get l k = none) : k ∉ l.map Prod.fst := by
  induction l with
  | nil => simp
  | cons a l ih =>
      obtain ⟨a1, a2⟩ := a
      by_cases ha : a1 = k
      · simp [assoc_get, ha] at h
      · simp only [assoc_get, if_neg ha] at h
        simp [ih h, Ne.symm ha]

/-- In a list with no duplicate keys, a key determines its value. -/
lemma nodup_keys_unique {κ ν : Type} {l : List (κ × ν)}
    (h : (l.map Prod.fst).Nodup) {k : κ} {v1 v2 : ν}
    (h1 : (k, v1) ∈ l) (h2 : (k, v2) ∈ l) : v1 = v2 := by
  induction l with
  | nil => cases h1
  | cons a l ih =>
      rw [List.map_cons, List.nodup_cons] at h
      rcases List.mem_cons.mp h1 with e1 | m1
      · subst e1
        rcases List.mem_cons.mp h2 with e2 | m2
        · injection e2 with _ hv
          exact hv.symm
        · exact absurd (List.mem_map_of_mem Prod.fst m2) h.1
      · rcases List.mem_cons.mp h2 with e2 | m2
        · subst e2
          exact absurd (List.mem_map_of_mem Prod.fst m1) h.1
        · exact ih h.2 m1 m2

/-- Interning an identifier twice in a row returns the same wrapper and
leaves the registry unchanged the second time. -/
lemma intern_intern (s : RegState) (id : Nat) :
    intern (intern s id).2 id = intern s id := by
  rcases hl : assoc_get s.entries id with _ | w
  · simp [intern, hl, assoc_get]
  · simp [intern, hl]

/-- Each registry operation preserves distinctness of the registered
native identifiers. -/
lemma regStep_keys_nodup (s : RegState) (op : RegOp)
    (h : (s.entries.map Prod.fst).Nodup) :
    (((regStep s op).entries.map Prod.fst)).Nodup := by
  cases op with
  | intern id =>
      rcases hl : assoc_get s.entries id with _ | w
      · have hk := assoc_get_none_not_key hl
        simp only [regStep, intern, hl, List.map_cons]
        exact List.nodup_cons.mpr ⟨hk, h⟩
      · simpa only [regStep, intern, hl] using h
  | collect id =>
      simp only [regStep, collect]
      exact ((List.filter_sublist s.entries).map Prod.fst).nodup h

/-- Distinctness of registered identifiers holds in every reachable
registry state. -/
lemma runRegOps_keys_nodup (ops : List RegOp) :
    (((runRegOps ops).entries.map Prod.fst)).Nodup := by
  suffices hgen : ∀ s : RegState, (s.entries.map Prod.fst).Nodup →
      (((ops.foldl regStep s).entries.map Prod.fst)).Nodup by
    exact hgen ⟨[], 0⟩ (by simp)
  induction ops with
  | nil => intro s h; simpa using h
  | cons op ops ih => intro s h; exact ih _ (regStep_keys_nodup s op h)

/-- A successful `GenericFile.__new__` is stable: repeating the same
construction against the resulting registry returns the same wrapper and
the same state. -/
lemma generic_file_new_stable (s1 : GFState) (fid par : Nat) (cn : String)
    (w : Nat) (s2 : GFState)
    (h : generic_file_new s1 fid par cn = .ok (w, s2)) :
    generic_file_new s2 fid par cn = .ok (w, s2) := by
  rcases hl : assoc_get s1.entries fid with _ | e
  · simp only [generic_file_new, hl] at h
    cases h
    simp [generic_file_new, assoc_get]
  · simp only [generic_file_new, hl] at h
    by_cases hc : e.parent = par ∧ e.closename = cn
    · rw [if_pos hc] at h
      cases h
      simp [generic_file_new, hl, hc]
    · rw [if_neg hc] at h
      cases h

/-- Submitting a request list appends it, in order, to the FIFO queue. -/
lemma submit_all_eq {Op Args : Type} (q : List (Option (Op × Args)))
    (rs : List (Op × Args)) : submit_all q rs = q ++ rs.map some := by
  induction rs generalizing q with
  | nil => simp [submit_all]
  | cons r rs ih =>
      have hstep : submit_all q (r :: rs) = submit_all (call_async q r.1 r.2) rs := rfl
      rw [hstep, ih, call_async]
      simp

/-- The worker runs a block of genuine (non-sentinel) requests to completion
one by one, in queue order, before looking at what follows. -/
lemma process_work_queue_append_map {Op Args β : Type}
    (exec : Op → Args → Except PyErr β) (rs : List (Op × Args))
    (rest : List (Option (Op × Args))) :
    process_work_queue exec (rs.map some ++ rest)
      = rs.map (fun r => exec r.1 r.2) ++ process_work_queue exec rest := by
  induction rs with
  | nil => simp
  | cons r rs ih =>
      obtain ⟨f, a⟩ := r
      simp [process_work_queue, ih]

/-- Indexing just past a block returns the following element. -/
lemma getElem_append_cons {γ : Type} (l1 : List γ) (x : γ) (l2 : List γ) :
    (l1 ++ x :: l2)[l1.length]? = some x := by
  induction l1 with
  | nil => simp
  | cons a l ih => simpa using ih

/-- The replenishment amount of `readall` is positive once the outstanding
request size has dropped to zero. -/
lemma one_le_replenish (R : Nat) (hR : 1 ≤ R) : 1 ≤ R * 3 / 2 / R * R := by
  have h1 : R ≤ R * 3 / 2 := (Nat.le_div_iff_mul_le (by norm_num)).mpr (by omega)
  have h2 : 1 ≤ R * 3 / 2 / R := (Nat.one_le_div_iff (by omega)).mpr h1
  calc 1 = 1 * 1 := by norm_num
    _ ≤ (R * 3 / 2 / R) * R := Nat.mul_le_mul h2 hR

/-- The `readall` loop drains the whole remaining content: whatever positive
batch sizes the native layer chooses, the loop accumulates every byte, in
order, and stops at the first zero-length read. -/
lemma readall_loop_complete (R : Nat) (cap : Nat → Nat) (hR : 1 ≤ R) :
    ∀ (fuel k to_read : Nat) (acc data : List Nat),
      data.length < fuel → 1 ≤ to_read →
      readall_loop R cap fuel k to_read acc data = (acc ++ data, []) := by
  intro fuel
  induction fuel with
  | zero => intro k t acc data h ht; omega
  | succ fuel ih =>
      intro k t acc data h ht
      cases data with
      | nil =>
          simp only [readall_loop]
          rw [if_neg (by omega)]
          simp
      | cons d ds =>
          simp only [readall_loop]
          rw [if_neg (by omega)]
          have hlen : 1 ≤ (d :: ds).length := by simp
          set n := min t (min (d :: ds).length (max 1 (cap k))) with hn
          have hn1 : 1 ≤ n := le_min ht (le_min hlen (le_max_left 1 _))
          have hnle : n ≤ (d :: ds).length := le_trans (min_le_right _ _) (min_le_left _ _)
          have hdrop : ((d :: ds).drop n).length < fuel := by
            rw [List.length_drop]
            simp only [List.length_cons] at h ⊢
            omega
          have hrep : 1 ≤ t - n + (R * 3 / 2 - (t - n)) / R * R := by
            rcases Nat.eq_zero_or_pos (t - n) with h0 | h0
            · rw [h0]
              simpa using one_le_replenish R hR
            · omega
          rw [ih (k + 1) (t - n + (R * 3 / 2 - (t - n)) / R * R)
                (acc ++ (d :: ds).take n) ((d :: ds).drop n) hdrop hrep]
          rw [List.append_assoc, List.take_append_drop]

/-!
## Claim theorems
-/

/-- Claim C1: for every sequence of operations, two lookups against the same
live native identifier via the identity registry (`Context.__new__` for
context identifiers, `GenericFile.__new__` for file/directory identifiers)
return the identical wrapper instance, and at most one live wrapper exists
per distinct native identifier at any time.  The first conjunct is the
Context registry lookup stability, the second the at-most-one-wrapper
invariant in every reachable registry state, and the third the lookup
stability of `GenericFile.__new__`. -/
theorem identity_registry_uniqueness (ops : List RegOp) (id : Nat)
    (s1 : GFState) (fid par : Nat) (cn : String) (w : Nat) (s2 : GFState)
    (hgf : generic_file_new s1 fid par cn = .ok (w, s2)) :
    intern (intern (runRegOps ops) id).2 id = intern (runRegOps ops) id
    ∧ (∀ w1 w2, (id, w1) ∈ (runRegOps ops).entries →
        (id, w2) ∈ (runRegOps ops).entries → w1 = w2)
    ∧ generic_file_new s2 fid par cn = .ok (w, s2) := by
  refine ⟨intern_intern _ id, fun w1 w2 h1 h2 => ?_,
    generic_file_new_stable s1 fid par cn w s2 hgf⟩
  exact nodup_keys_unique (runRegOps_keys_nodup ops) h1 h2

/-- Claim C1 witness: a concrete run of the registries. -/
theorem identity_registry_uniqueness_witness :
    intern (intern (runRegOps [RegOp.intern 3, RegOp.collect 3, RegOp.intern 3]) 3).2 3
        = intern (runRegOps [RegOp.intern 3, RegOp.collect 3, RegOp.intern 3]) 3
    ∧ (∀ w1 w2,
        (3, w1) ∈ (runRegOps [RegOp.intern 3, RegOp.collect 3, RegOp.intern 3]).entries →
        (3, w2) ∈ (runRegOps [RegOp.intern 3, RegOp.collect 3, RegOp.intern 3]).entries →
        w1 = w2)
    ∧ generic_file_new ⟨[(7, ⟨0, 1, "FunctionClose"⟩)], 1⟩ 7 1 "FunctionClose"
        = .ok (0, ⟨[(7, ⟨0, 1, "FunctionClose"⟩)], 1⟩) :=
  identity_registry_uniqueness [RegOp.intern 3, RegOp.collect 3, RegOp.intern 3] 3
    ⟨[], 0⟩ 7 1 "FunctionClose" 0 ⟨[(7, ⟨0, 1, "FunctionClose"⟩)], 1⟩ rfl

/-- Claim C2: N async requests submitted in order on one Context sit in the
FIFO queue in submission order, and the single worker thread runs each to
completion strictly serially, so the completions it posts are exactly the
per-request outcomes in submission order — no reordering, no parallelism. -/
theorem fifo_dispatch_ordering {Op Args β : Type}
    (exec : Op → Args → Except PyErr β) (rs : List (Op × Args)) :
    submit_all [] rs = rs.map some
    ∧ process_work_queue exec (submit_all [] rs) = rs.map (fun r => exec r.1 r.2) := by
  have hq : submit_all ([] : List (Option (Op × Args))) rs = rs.map some := by
    simpa using submit_all_eq [] rs
  refine ⟨hq, ?_⟩
  rw [hq]
  simpa [process_work_queue] using process_work_queue_append_map exec rs []

/-- Claim C3: a queued request whose operation raises has the exception
captured as the failure outcome in its completion slot, the worker loop
survives and still processes every subsequently queued request, and only
the sentinel (null-operation) entry ends the loop: the first conjunct shows
every request before the sentinel completes, the second that the failing
request at position `rs1.length` completes with exactly the raised
exception, and the third that without a sentinel nothing stops the loop. -/
theorem worker_survives_operation_failure {Op Args β : Type}
    (exec : Op → Args → Except PyErr β) (rs1 rs2 : List (Op × Args))
    (f : Op) (a : Args) (e : PyErr) (rest : List (Option (Op × Args)))
    (hfail : exec f a = .error e) :
    process_work_queue exec ((rs1 ++ (f, a) :: rs2).map some ++ none :: rest)
        = (rs1 ++ (f, a) :: rs2).map (fun r => exec r.1 r.2)
    ∧ (process_work_queue exec ((rs1 ++ (f, a) :: rs2).map some ++ none :: rest))[rs1.length]?
        = some (Except.error e)
    ∧ process_work_queue exec ((rs1 ++ (f, a) :: rs2).map some)
        = (rs1 ++ (f, a) :: rs2).map (fun r => exec r.1 r.2) := by
  have h1 : process_work_queue exec ((rs1 ++ (f, a) :: rs2).map some ++ none :: rest)
      = (rs1 ++ (f, a) :: rs2).map (fun r => exec r.1 r.2) := by
    rw [process_work_queue_append_map]
    simp [process_work_queue]
  refine ⟨h1, ?_, ?_⟩
  · rw [h1, List.map_append, List.map_cons]
    have := getElem_append_cons (rs1.map (fun r => exec r.1 r.2)) (exec f a)
      (rs2.map (fun r => exec r.1 r.2))
    rw [List.length_map] at this
    rw [this, hfail]
  · have := process_work_queue_append_map exec (rs1 ++ (f, a) :: rs2) []
    simpa [process_work_queue] using this

/-- Claim C3 witness: a three-request queue whose middle operation fails,
followed by the sentinel and a stray entry behind it. -/
theorem worker_survives_operation_failure_witness :
    process_work_queue
        (fun (f a : Nat) => if f = 0 then Except.error (PyErr.smbError "boom")
          else Except.ok (f + a))
        (([(1, 1)] ++ (0, 0) :: [(2, 3)]).map some ++ none :: [some (4, 5)])
        = ([(1, 1)] ++ (0, 0) :: [(2, 3)]).map
            (fun r : Nat × Nat => if r.1 = 0 then Except.error (PyErr.smbError "boom")
              else Except.ok (r.1 + r.2))
    ∧ (process_work_queue
        (fun (f a : Nat) => if f = 0 then Except.error (PyErr.smbError "boom")
          else Except.ok (f + a))
        (([(1, 1)] ++ (0, 0) :: [(2, 3)]).map some ++ none :: [some (4, 5)]))[
          ([(1, 1)] : List (Nat × Nat)).length]?
        = some (Except.error (PyErr.smbError "boom"))
    ∧ process_work_queue
        (fun (f a : Nat) => if f = 0 then Except.error (PyErr.smbError "boom")
          else Except.ok (f + a))
        (([(1, 1)] ++ (0, 0) :: [(2, 3)]).map some)
        = ([(1, 1)] ++ (0, 0) :: [(2, 3)]).map
            (fun r : Nat × Nat => if r.1 = 0 then Except.error (PyErr.smbError "boom")
              else Except.ok (r.1 + r.2)) :=
  worker_survives_operation_failure
    (fun (f a : Nat) => if f = 0 then Except.error (PyErr.smbError "boom")
      else Except.ok (f + a))
    [(1, 1)] [(2, 3)] 0 0 (PyErr.smbError "boom") [some (4, 5)] rfl

/-- Claim C4 counterexample: `open_async` called with a wrong-typed file
name (an `int`) does not raise at the call site — it returns `.ok` with a
future — and the request with the invalid argument IS enqueued to the worker
queue, contradicting the claim that the `TypeError` is raised immediately
and synchronously before any request is enqueued. -/
theorem async_validation_counterexample :
    open_async [] (StrArg.wrongType "int") 0 0
      = .ok ([some (CtxMethod.openM, ArgTuple.openArgs (StrArg.wrongType "int") 0 0)], 0) := rfl

/-- Claim C4 amended: an async-mode operation given an invalid argument
(wrong type or embedded null) does not validate before enqueueing: the raw
arguments are enqueued and a future is returned with no synchronous
exception, and the `TypeError`/`ValueError` is raised only when the worker
thread invokes the operation, so it is delivered through the result slot. -/
theorem async_validation_on_worker (q : CtxQueue) (fname : StrArg)
    (flags mode : Nat) (nativeOpen : List Nat → Nat → Nat → Option Nat)
    (nativeUnlink : List Nat → Int) (e : PyErr)
    (henc : encode_str0 fname = .error e) :
    open_async q fname flags mode
        = .ok (q ++ [some (CtxMethod.openM, ArgTuple.openArgs fname flags mode)], q.length)
    ∧ unlink_async q fname
        = .ok (q ++ [some (CtxMethod.unlinkM, ArgTuple.unlinkArgs fname)], q.length)
    ∧ run_ctx_method nativeOpen nativeUnlink CtxMethod.openM
        (ArgTuple.openArgs fname flags mode) = .error e
    ∧ run_ctx_method nativeOpen nativeUnlink CtxMethod.unlinkM
        (ArgTuple.unlinkArgs fname) = .error e := by
  refine ⟨rfl, rfl, ?_, ?_⟩
  · simp [run_ctx_method, context_open, henc, Except.map]
  · simp [run_ctx_method, context_unlink, henc, Except.map]

/-- Claim C4 amended witness: a wrong-typed file name. -/
theorem async_validation_on_worker_witness :
    open_async [] (StrArg.wrongType "int") 1 2
        = .ok ([some (CtxMethod.openM, ArgTuple.openArgs (StrArg.wrongType "int") 1 2)],
            ([] : CtxQueue).length)
    ∧ unlink_async [] (StrArg.wrongType "int")
        = .ok ([some (CtxMethod.unlinkM, ArgTuple.unlinkArgs (StrArg.wrongType "int"))],
            ([] : CtxQueue).length)
    ∧ run_ctx_method (fun _ _ _ => none) (fun _ => 0) CtxMethod.openM
        (ArgTuple.openArgs (StrArg.wrongType "int") 1 2)
        = .error (PyErr.typeError ("not a bytes or str: " ++ "int"))
    ∧ run_ctx_method (fun _ _ _ => none) (fun _ => 0) CtxMethod.unlinkM
        (ArgTuple.unlinkArgs (StrArg.wrongType "int"))
        = .error (PyErr.typeError ("not a bytes or str: " ++ "int")) :=
  async_validation_on_worker [] (StrArg.wrongType "int") 1 2
    (fun _ _ _ => none) (fun _ => 0)
    (PyErr.typeError ("not a bytes or str: " ++ "int")) rfl

/-- Claim C5, failing input: a directory whose native entry stream holds
`.`, `..` and the two named entries `a` and `b`.  With the decode-to-text
preference OFF, `get_all_dents` resets the cursor and yields exactly the two
named entries in native order (first conjunct, the claimed behaviour).  With
the preference ON, however, the decoded names are `str` values, which never
compare equal to the `bytes` literals `b"."` and `b".."` of the filter, so
the self and parent entries ARE yielded (second conjunct) — the code
contradicts the claim and the intent of its own filter for that setting. -/
theorem get_all_dents_dot_filter_bug :
    get_all_dents false (fun _ => 1)
        [⟨4, [], dotBytes⟩, ⟨4, [], dotdotBytes⟩, ⟨8, [], [97]⟩, ⟨8, [], [98]⟩] 3
      = [⟨8, .bytes [], .bytes [97]⟩, ⟨8, .bytes [], .bytes [98]⟩]
    ∧ get_all_dents true (fun _ => 2)
        [⟨4, [], dotBytes⟩, ⟨4, [], dotdotBytes⟩, ⟨8, [], [97]⟩, ⟨8, [], [98]⟩] 3
      = [⟨4, .text [], .text dotBytes⟩, ⟨4, .text [], .text dotdotBytes⟩,
         ⟨8, .text [], .text [97]⟩, ⟨8, .text [], .text [98]⟩] := by
  decide

/-- Claim C6: with auth-table entries for («srv», «shr»), («srv», *) and
(*, *), the lookup for («srv», «shr») returns the most specific entry, a
lookup for («srv», «otherShare») falls back to the («srv», *) entry, a
lookup for an unrelated server falls back to the (*, *) entry when present,
and with no applicable entry or fallback the lookup returns the all-unset
triple. -/
theorem credential_fallback_precedence (srv shr oshr osrv anyshr : List Nat)
    (v1 v2 v3 : AuthValue) (hshr : oshr ≠ shr) (hsrv : osrv ≠ srv) :
    simple_auth_lookup
        [((some srv, some shr), v1), ((some srv, none), v2), ((none, none), v3)]
        (some srv, some shr) = v1
    ∧ simple_auth_lookup
        [((some srv, some shr), v1), ((some srv, none), v2), ((none, none), v3)]
        (some srv, some oshr) = v2
    ∧ simple_auth_lookup
        [((some srv, some shr), v1), ((some srv, none), v2), ((none, none), v3)]
        (some osrv, some anyshr) = v3
    ∧ simple_auth_lookup
        [((some srv, some shr), v1), ((some srv, none), v2)]
        (some osrv, some anyshr) = (none, none, none) := by
  refine ⟨?_, ?_, ?_, ?_⟩ <;>
    simp [simple_auth_lookup, assoc_get, Prod.ext_iff, hshr, hsrv,
      Ne.symm hshr, Ne.symm hsrv]

/-- Claim C6 witness: concrete servers, shares and credential triples. -/
theorem credential_fallback_precedence_witness :
    simple_auth_lookup
        [((some [115], some [104]), (some [1], some [2], some [3])),
         ((some [115], none), (some [4], none, some [5])),
         ((none, none), (none, some [6], none))]
        (some [115], some [104]) = (some [1], some [2], some [3])
    ∧ simple_auth_lookup
        [((some [115], some [104]), (some [1], some [2], some [3])),
         ((some [115], none), (some [4], none, some [5])),
         ((none, none), (none, some [6], none))]
        (some [115], some [111]) = (some [4], none, some [5])
    ∧ simple_auth_lookup
        [((some [115], some [104]), (some [1], some [2], some [3])),
         ((some [115], none), (some [4], none, some [5])),
         ((none, none), (none, some [6], none))]
        (some [120], some [9]) = (none, some [6], none)
    ∧ simple_auth_lookup
        [((some [115], some [104]), (some [1], some [2], some [3])),
         ((some [115], none), (some [4], none, some [5]))]
        (some [120], some [9]) = (none, none, none) :=
  credential_fallback_precedence [115] [104] [111] [120] [9]
    (some [1], some [2], some [3]) (some [4], none, some [5])
    (none, some [6], none) (by decide) (by decide)

/-- Claim C7: reading with no explicit count (`read(None)`, which delegates
to `readall`) from a finite resource returns exactly all its bytes, whatever
positive partitioning the native reads choose, terminating on the first
zero-length native read; the resource is then exhausted, and calling again
returns zero bytes without error. -/
theorem read_until_eof (read_at_once : Nat) (cap : Nat → Nat)
    (data : List Nat) (hR : 1 ≤ read_at_once) :
    (file_read read_at_once cap none data).1 = data
    ∧ (file_read read_at_once cap none data).2 = []
    ∧ file_read read_at_once cap none (file_read read_at_once cap none data).2
        = ([], []) := by
  have hall : readall read_at_once cap data = (data, []) := by
    have := readall_loop_complete read_at_once cap hR (data.length + 1) 0
      read_at_once [] data (by omega) hR
    simpa [readall] using this
  have hempty : readall read_at_once cap [] = ([], []) := by
    have := readall_loop_complete read_at_once cap hR 1 0 read_at_once [] []
      (by simp) hR
    simpa [readall] using this
  refine ⟨?_, ?_, ?_⟩ <;> simp [file_read, hall, hempty]

/-- Claim C7 witness: the default `read_at_once` of 4096 against a
three-byte resource partitioned by a varying native batch size. -/
theorem read_until_eof_witness :
    (file_read 4096 (fun k => k + 2) none [10, 20, 30]).1 = [10, 20, 30]
    ∧ (file_read 4096 (fun k => k + 2) none [10, 20, 30]).2 = []
    ∧ file_read 4096 (fun k => k + 2) none
        (file_read 4096 (fun k => k + 2) none [10, 20, 30]).2 = ([], []) :=
  read_until_eof 4096 (fun k => k + 2) [10, 20, 30] (by omega)

/-- Claim C8 counterexample: a native write that accepts 0 of the 3 offered
bytes returns the count 0, which satisfies the claim bound 0 ≤ n < len(data),
yet `File.write` raises `SMBError` (the code tests `nrbytes <= 0`, not
`nrbytes < 0`) instead of returning 0 — so the claim as stated is false. -/
theorem short_write_zero_raises :
    file_write (fun _ => 0) (DataArg.ofBytes [1, 2, 3])
      = .error (PyErr.smbError "writing to file") := rfl

/-- Claim C8 amended: when the native write accepts part of the data with a
positive count n (0 < n < len(data)), `write` returns that count without
raising; a non-positive native return value (zero or negative) causes the
ProtocolError-kind failure. -/
theorem short_write_contract (nativeWrite : List Nat → Int) (bs : List Nat)
    (n : Int) (hn : nativeWrite bs = n) :
    (0 < n → file_write nativeWrite (.ofBytes bs) = .ok n)
    ∧ (n ≤ 0 → file_write nativeWrite (.ofBytes bs)
        = .error (PyErr.smbError "writing to file")) := by
  constructor
  · intro h
    simp only [file_write, hn]
    rw [if_neg (by omega)]
  · intro h
    simp only [file_write, hn]
    rw [if_pos h]

/-- Claim C8 amended witness: a native layer accepting at most 2 bytes per
call, and one reporting failure. -/
theorem short_write_contract_witness :
    file_write (fun _ => 2) (DataArg.ofBytes [1, 2, 3, 4]) = .ok 2
    ∧ file_write (fun _ => -1) (DataArg.ofBytes [9])
        = .error (PyErr.smbError "writing to file") :=
  ⟨(short_write_contract (fun _ => 2) [1, 2, 3, 4] 2 rfl).1 (by norm_num),
   (short_write_contract (fun _ => -1) [9] (-1) rfl).2 (by norm_num)⟩

/-- Claim C9: `Context.getxattr_async` always raises a `NameError` (its body
references the undefined name `sellf`) before anything reaches the worker
queue, for every queue state and every arguments; it never returns an
awaitable result slot. -/
theorem getxattr_async_raises_name_error (q : CtxQueue) (fname name : StrArg) :
    getxattr_async q fname name = .error (PyErr.nameError "sellf") := by
  have h : resolve_name getxattr_async_scope "sellf" = false := by decide
  simp [getxattr_async, h]

/-- Claim C10 counterexample: the claim says a negative native return raises
the ProtocolError-kind `SMBError`, but the restype of `telldir_fn` is the
unsigned `c_off_t = ct.c_ulonglong`, so the native C-level -1 reaches Python
as 2^64 - 1: the `result < 0` test does not fire and `telldir` raises the
`NameError` instead — the claimed `SMBError` is never produced. -/
theorem telldir_negative_counterexample :
    telldir (-1) = .error (PyErr.nameError "offset") := by
  have hres : resolve_name telldir_scope "offset" = false := by decide
  have hnn : ¬ ((c_ulonglong_of_int (-1) : Int) < 0) :=
    not_lt.mpr (Int.natCast_nonneg _)
  simp [telldir, hres, hnn]

/-- Claim C10 amended: for every native telldir return value (delivered by
ctypes as an unsigned 64-bit quantity, hence non-negative at the Python
level, so the `result < 0` check is dead code), `Directory.telldir` raises
the unhandled `NameError` from the undefined name `offset`: it never returns
the cursor position, and the `SMBError` branch is never taken. -/
theorem telldir_always_name_error (c_result : Int) :
    telldir c_result = .error (PyErr.nameError "offset") := by
  have hres : resolve_name telldir_scope "offset" = false := by decide
  have hnn : ¬ ((c_ulonglong_of_int c_result : Int) < 0) :=
    not_lt.mpr (Int.natCast_nonneg _)
  simp [telldir, hres, hnn]

end Smbcpp
